import Mathlib

/-!
Shallow embedding of the ingestion and realtime-relay handlers of
`src/api/workspace.rs` (AppFlowy-Cloud). Byte sequences are modelled as
`List Nat` (each entry a byte value; reads reduce modulo 256 exactly where
the source converts `u8` values to wider integers). External collaborators
(codecs, storage, the indexer, the realtime sink) are modelled as oracle
functions supplied through environment records; the handlers themselves are
translated from the source. Handler results are `Except AppError v` where
the `ok` value records the list of records handed to persistence (the HTTP
response body itself carries no data on success).
-/

/-- Error type mirroring the `AppError` variants constructed or propagated by
the handlers in `src/api/workspace.rs`. Variants not constructed in this file
stand for errors produced by external layers and carried through unchanged. -/
inductive AppError where
  | invalidRequest (msg : String)
  | noRequiredData (msg : String)
  | internal (msg : String)
  | payloadRead (msg : String)
  | serde (msg : String)
  | externalError (msg : String)
deriving DecidableEq, Repr

/-- Collab types, from the external collab-entity crate. -/
inductive CollabType where
  | document
  | database
  | workspaceDatabase
  | folder
  | databaseRow
  | userAwareness
  | unknown
deriving DecidableEq, Repr

/-- Embedding payloads are opaque to the handlers; a tag models the content. -/
structure AFCollabEmbeddings where
  tokens_consumed : Nat
deriving DecidableEq, Repr

/-- The per-record payload persisted for one collab object, as in the
database-entity crate's CollabParams. -/
structure CollabParams where
  object_id : String
  encoded_collab_v1 : List Nat
  collab_type : CollabType
  embeddings : Option AFCollabEmbeddings
deriving DecidableEq, Repr

/-- Single-record create payload; `split` separates the workspace id. -/
structure CreateCollabParams where
  workspace_id : String
  object_id : String
  encoded_collab_v1 : List Nat
  collab_type : CollabType
deriving DecidableEq, Repr

def CreateCollabParams.split (p : CreateCollabParams) : CollabParams × String :=
  (⟨p.object_id, p.encoded_collab_v1, p.collab_type, none⟩, p.workspace_id)

/-- Compression codec selected by the X-Compression-Type header. The source
declares a single variant, brotli with a decompressed-buffer-size hint. -/
inductive CompressionType where
  | brotli (buffer_size : Nat)
deriving DecidableEq, Repr

/-! ## Frame codec: batch-list framing (big-endian), lines 685-711

The batch handler grows `payload_buffer` with each received chunk and
eagerly extracts complete `(offset, length)` frame spans, reading the next
frame length as a 4-byte big-endian integer at `current_offset` and
holding back an incomplete trailing frame. The extraction loop is embedded
with an explicit fuel argument (structural recursion) so that concrete
inputs evaluate by reduction; the source loop terminates because every
iteration advances the offset by at least 4 bytes, and the wrapper below
supplies fuel exceeding the number of possible iterations. -/

/-- Read of `u32::from_be_bytes` at `off` in the buffer (out-of-range reads
never happen under the loop guard; `getD` defaults to 0). -/
def frameSize (buffer : List Nat) (off : Nat) : Nat :=
  (buffer.getD off 0) % 256 * 16777216 +
  (buffer.getD (off + 1) 0) % 256 * 65536 +
  (buffer.getD (off + 2) 0) % 256 * 256 +
  (buffer.getD (off + 3) 0) % 256

/-- Fuelled form of the inner frame-extraction loop (lines 692-709). -/
def extractFramesFuel : Nat → List Nat → Nat → List (Nat × Nat) → List (Nat × Nat) × Nat
  | 0, _, off, acc => (acc, off)
  | fuel + 1, buffer, off, acc =>
    if off + 4 ≤ buffer.length then
      let size := frameSize buffer off
      if off + 4 + size ≤ buffer.length then
        extractFramesFuel fuel buffer (off + 4 + size) (acc ++ [(off + 4, size)])
      else (acc, off)
    else (acc, off)

/-- The frame-extraction loop: extract all complete frames starting at
`off`, returning the extended span list and the new offset. -/
def extractFrames (buffer : List Nat) (off : Nat) (acc : List (Nat × Nat)) :
    List (Nat × Nat) × Nat :=
  extractFramesFuel (buffer.length + 1) buffer off acc

/-- Mutable state of the accumulation loop in `batch_create_collab_handler`. -/
structure FrameState where
  payload_buffer : List Nat
  offset_len_list : List (Nat × Nat)
  current_offset : Nat
deriving DecidableEq, Repr

def FrameState.initial : FrameState := ⟨[], [], 0⟩

/-- One iteration of the outer receipt loop for an `Ok` chunk: extend the
buffer, then extract every complete frame. -/
def processChunk (st : FrameState) (bytes : List Nat) : FrameState :=
  let buffer := st.payload_buffer ++ bytes
  let r := extractFrames buffer st.current_offset st.offset_len_list
  ⟨buffer, r.1, r.2⟩

/-- The receipt loop (lines 689-711): chunks that arrive as stream errors
are skipped silently (the source has `if let Ok(bytes) = item` with no
else branch), all other chunks feed `processChunk`. -/
def accumulatePayload (items : List (Except String (List Nat))) : FrameState :=
  items.foldl
    (fun st item =>
      match item with
      | .ok bytes => processChunk st bytes
      | .error _ => st)
    FrameState.initial

/-- The successfully received chunks of a payload stream, in order. -/
def okChunks (items : List (Except String (List Nat))) : List (List Nat) :=
  items.filterMap
    (fun item =>
      match item with
      | .ok bytes => some bytes
      | .error _ => none)

/-! ## Parallel validator: the rayon filter_map (lines 713-743)

Decompression, deserialization (`CollabParams::from_bytes`), field
validation (`validate`) and encoded-state validation
(`validate_encode_collab`) are external codecs; they enter as oracle
functions. The rayon indexed parallel iterator's `collect` preserves input
order, so the accepted list is an order-preserving filter of the spans. -/

structure BatchOracle where
  decompress : Nat → List Nat → Except String (List Nat)
  from_bytes : List Nat → Option CollabParams
  validate : CollabParams → Bool
  validate_encode_collab : String → List Nat → CollabType → Bool

/-- Slice of the shared buffer at one frame span. -/
def sliceBuffer (buffer : List Nat) (off len : Nat) : List Nat :=
  (buffer.drop off).take len

/-- Per-span body of the `filter_map` closure: decompress, deserialize,
validate fields, validate the encoded state; any failure yields `none`
(the decompression error is logged in the source and then dropped). -/
def acceptRecord (o : BatchOracle) (buffer_size : Nat) (data : List Nat) :
    Option CollabParams :=
  match o.decompress buffer_size data with
  | .error _ => none
  | .ok decompressed_data =>
    match o.from_bytes decompressed_data with
    | none => none
    | some params =>
      if o.validate params then
        if o.validate_encode_collab params.object_id params.encoded_collab_v1
            params.collab_type then
          some params
        else none
      else none

/-- The accepted record list produced by the spawned validation task. -/
def collab_params_list (o : BatchOracle) (buffer_size : Nat) (buffer : List Nat)
    (spans : List (Nat × Nat)) : List CollabParams :=
  spans.filterMap (fun s => acceptRecord o buffer_size (sliceBuffer buffer s.1 s.2))

/-- Accepted set of a whole payload stream: accumulate chunks, then run the
validation filter over the extracted frame spans. -/
def acceptedSet (o : BatchOracle) (buffer_size : Nat)
    (payload : List (Except String (List Nat))) : List CollabParams :=
  collab_params_list o buffer_size (accumulatePayload payload).payload_buffer
    (accumulatePayload payload).offset_len_list

/-! ## Embedding enrichment (lines 1726-1741 and call sites) -/

/-- Model of `futures_util::future::try_join_all`: the join is fail-fast.
If any future fails, the whole call returns an error and every successful
result is discarded; the model deterministically reports the first error in
list order (the runtime reports the first error in completion order, which
does not affect whether an error is reported). -/
def try_join_all {α : Type} (futures : List (Except AppError α)) :
    Except AppError (List α) :=
  match futures with
  | [] => .ok []
  | f :: rest =>
    match f with
    | .error e => .error e
    | .ok a =>
      match try_join_all rest with
      | .error e => .error e
      | .ok xs => .ok (a :: xs)

/-- Embedding fan-out of `fetch_embeddings`: one future per record, joined
with `try_join_all`, then the results are written back by index. -/
def fetch_embeddings
    (create_collab_embeddings : CollabParams → Except AppError (Option AFCollabEmbeddings))
    (params : List CollabParams) : Except AppError (List CollabParams) :=
  match try_join_all (params.map create_collab_embeddings) with
  | .error e => .error e
  | .ok results => .ok (params.zipWith (fun p emb => { p with embeddings := emb }) results)

/-! ## batch_create_collab_handler (lines 672-787) -/

/-- Environment of effects consumed by `batch_create_collab_handler`:
user-id lookup, header parsing, the validation oracles, whether the spawned
blocking task itself ran to completion, the indexer, and storage. -/
structure BatchCollabEnv where
  get_user_uid : Except AppError Int
  compress_type : Except AppError CompressionType
  oracle : BatchOracle
  spawn_ok : Bool
  can_index_workspace : String → Except AppError Bool
  create_collab_embeddings : CollabParams → Except AppError (Option AFCollabEmbeddings)
  batch_insert_new_collab : String → Int → List CollabParams → Except AppError Unit

/-- Batch ingestion handler. The `ok` value is the record list handed to
`batch_insert_new_collab` (the HTTP response carries no data). A failure of
the spawned validation task maps to `InvalidRequest "Failed to decompress
data"` (line 743); an empty accepted list maps to `InvalidRequest "Empty
collab params list"` (line 746); an embedding fan-out failure is logged and
the accepted list proceeds without embeddings (lines 764-770). -/
def batch_create_collab_handler (env : BatchCollabEnv) (workspace_id : String)
    (payload : List (Except String (List Nat))) : Except AppError (List CollabParams) :=
  match env.get_user_uid with
  | .error e => .error e
  | .ok uid =>
    match env.compress_type with
    | .error e => .error e
    | .ok (CompressionType.brotli buffer_size) =>
      if env.spawn_ok then
        let params_list := acceptedSet env.oracle buffer_size payload
        if params_list.isEmpty then
          .error (.invalidRequest "Empty collab params list")
        else
          match env.can_index_workspace workspace_id with
          | .error e => .error e
          | .ok can_index =>
            let final_list :=
              if can_index then
                match fetch_embeddings env.create_collab_embeddings params_list with
                | .ok updated => updated
                | .error _ => params_list
              else params_list
            match env.batch_insert_new_collab workspace_id uid final_list with
            | .error e => .error e
            | .ok _ => .ok final_list
      else .error (.invalidRequest "Failed to decompress data")

/-! ## create_collab_handler (lines 583-670) -/

/-- Environment of effects consumed by `create_collab_handler`. The body
parse (JSON or brotli-compressed, lines 591-609) is supplied as an already
settled `Except`; `check_encode_collab` is the CollabValidator oracle. -/
structure CreateCollabEnv where
  get_user_uid : Except AppError Int
  check_encode_collab : CollabParams → Except String Unit
  can_index_workspace : String → Except AppError Bool
  create_collab_embeddings : CollabParams → Except AppError (Option AFCollabEmbeddings)
  begin_transaction : Except AppError Unit
  insert_new_collab : String → Int → CollabParams → Except AppError Unit
  commit_transaction : Except AppError Unit

/-- Single-record create handler. The `ok` value lists the persisted
record. The object-id check at lines 613-619 rejects unconditionally
whenever `object_id == workspace_id`, for every collab type; an embedding
failure is logged and the record proceeds without embeddings. -/
def create_collab_handler (env : CreateCollabEnv)
    (parsed : Except AppError CreateCollabParams) : Except AppError (List CollabParams) :=
  match env.get_user_uid with
  | .error e => .error e
  | .ok uid =>
    match parsed with
    | .error e => .error e
    | .ok p =>
      let params0 := p.split.1
      let workspace_id := p.split.2
      if params0.object_id = workspace_id then
        .error (.invalidRequest "object_id cannot be the same as workspace_id")
      else
        match env.check_encode_collab params0 with
        | .error err =>
          .error (.noRequiredData
            ("collab doc state is not correct:" ++ params0.object_id ++ "," ++ err))
        | .ok _ =>
          match env.can_index_workspace workspace_id with
          | .error e => .error e
          | .ok can_index =>
            let params :=
              if can_index then
                match env.create_collab_embeddings params0 with
                | .ok embeddings => { params0 with embeddings := embeddings }
                | .error _ => params0
              else params0
            match env.begin_transaction with
            | .error e => .error e
            | .ok _ =>
              match env.insert_new_collab workspace_id uid params with
              | .error e => .error e
              | .ok _ =>
                match env.commit_transaction with
                | .error e => .error e
                | .ok _ => .ok [params]

/-! ## Realtime relay (lines 1513-1556 and 1683-1724) -/

/-- Decoded inner realtime message; its content is opaque to the relay. -/
structure RealtimeMessage where
  tag : Nat
deriving DecidableEq, Repr

/-- Outer protocol-buffer envelope of the realtime endpoint. -/
structure HttpRealtimeMessage where
  device_id : String
  payload : List Nat
deriving DecidableEq, Repr

/-- Message handed to the realtime server sink. -/
structure ClientStreamMessage where
  uid : Int
  device_id : String
  message : RealtimeMessage
deriving DecidableEq, Repr

/-- Failure modes of the actix mailbox `try_send`. -/
inductive TrySendError where
  | full
  | closed
deriving DecidableEq, Repr

/-- Display text of a `try_send` failure, interpolated into the handler's
error message. -/
def TrySendError.display : TrySendError → String
  | .full => "mailbox full"
  | .closed => "mailbox closed"

/-- Environment of effects consumed by the realtime endpoint: header
parsing, user-id lookup, the protobuf codecs, decompression, and the
bounded realtime sink. -/
structure RealtimeEnv where
  device_id_header : Except String String
  get_user_uid : Except AppError Int
  decode_outer : List Nat → Except String HttpRealtimeMessage
  compression_header : Option (Except AppError CompressionType)
  blocking_decompress : Nat → List Nat → Except AppError (List Nat)
  decode_inner : List Nat → Except String RealtimeMessage
  try_send : ClientStreamMessage → Except TrySendError Unit

/-- The device id the realtime handler routes with: the header value, or
the empty string when the header is absent or malformed (line 1522). -/
def deviceIdOf (env : RealtimeEnv) : String :=
  match env.device_id_header with
  | .ok d => d
  | .error _ => ""

/-- Body accumulation of the realtime endpoint (lines 1529-1532): unlike
the batch handler, a chunk error propagates immediately (`item?`). -/
def collectChunks (items : List (Except AppError (List Nat))) :
    Except AppError (List Nat) :=
  match items with
  | [] => .ok []
  | item :: rest =>
    match item with
    | .error e => .error e
    | .ok bytes =>
      match collectChunks rest with
      | .error e => .error e
      | .ok more => .ok (bytes ++ more)

/-- Decode pipeline `parser_realtime_msg` (lines 1683-1724): decode the
outer envelope (a failure maps to `AppError::Internal`, line 1692),
optionally decompress the payload per the compression header, then decode
the inner message (a failure maps to `InvalidRequest`, lines 1711-1713).
`Message::from` of a byte vector is always the binary variant, so the
unsupported-type branch is unreachable. -/
def parser_realtime_msg (env : RealtimeEnv) (payload : List Nat) :
    Except AppError RealtimeMessage :=
  match env.decode_outer payload with
  | .error e => .error (.internal e)
  | .ok outer =>
    let decompressed : Except AppError (List Nat) :=
      match env.compression_header with
      | none => .ok outer.payload
      | some header =>
        match header with
        | .error e => .error e
        | .ok (CompressionType.brotli buffer_size) =>
          env.blocking_decompress buffer_size outer.payload
    match decompressed with
    | .error e => .error e
    | .ok data =>
      match env.decode_inner data with
      | .error e => .error (.invalidRequest ("Failed to parse RealtimeMessage: " ++ e))
      | .ok message => .ok message

/-- Realtime endpoint handler (lines 1513-1556): resolve the device id
(falling back to the empty string), resolve the user id, accumulate the
body, decode the message, then perform one non-blocking `try_send`; a full
or closed sink maps to `AppError::Internal` (lines 1546-1555) with no
internal retry. -/
def post_realtime_message_stream_handler (env : RealtimeEnv)
    (payload : List (Except AppError (List Nat))) : Except AppError Unit :=
  let device_id := deviceIdOf env
  match env.get_user_uid with
  | .error e => .error e
  | .ok uid =>
    match collectChunks payload with
    | .error e => .error e
    | .ok bytes =>
      match parser_realtime_msg env bytes with
      | .error e => .error e
      | .ok message =>
        match env.try_send ⟨uid, device_id, message⟩ with
        | .ok _ => .ok ()
        | .error err =>
          .error (.internal
            ("Failed to send message to websocket server, error:" ++ err.display))

/-! ## Publish stream (lines 1415-1466)

PayloadReader lives in `crate::api::util`, outside the examined source.
Its two read primitives are modelled from the spec: a 4-byte little-endian
length read and an exact read of a declared number of bytes, each failing
if the stream ends early. -/

/-- Modelled from the spec: `PayloadReader::read_u32_little_endian` reads a
4-byte little-endian length from the stream head. -/
def readU32LittleEndian (bytes : List Nat) : Except AppError (Nat × List Nat) :=
  match bytes with
  | b0 :: b1 :: b2 :: b3 :: rest =>
    .ok (b0 % 256 + b1 % 256 * 256 + b2 % 256 * 65536 + b3 % 256 * 16777216, rest)
  | _ => .error (.payloadRead "stream ended while reading a length header")

/-- Modelled from the spec: `PayloadReader::read_exact` reads exactly `n`
bytes from the stream head. -/
def readExact (bytes : List Nat) (n : Nat) : Except AppError (List Nat × List Nat) :=
  if n ≤ bytes.length then .ok (bytes.take n, bytes.drop n)
  else .error (.payloadRead "stream ended while reading a frame body")

/-- Decoded metadata is an opaque structured value. -/
structure PublishCollabMetadata where
  tag : Nat
deriving DecidableEq, Repr

/-- One meta/data pair accumulated by the publish endpoint. -/
structure PublishCollabItem where
  meta : PublishCollabMetadata
  data : List Nat
deriving DecidableEq, Repr

/-- Environment of effects consumed by the publish endpoint: the JSON
metadata decoder and the publish store. -/
structure PublishEnv where
  decode_meta : List Nat → Except String PublishCollabMetadata
  publish_collabs : List PublishCollabItem → Except AppError Unit

/-- Fuelled form of the publish accumulation loop (lines 1426-1454): read a
metadata length (erroring above 4 MiB before any body byte is read,
terminating normally at 0), read and decode the metadata, read a data
length (erroring above 32 MiB before any body byte is read), read the data,
and push the pair. Each iteration consumes at least 4 bytes, so fuel
exceeding the input length never runs out. -/
def publishLoopFuel (env : PublishEnv) :
    Nat → List Nat → List PublishCollabItem → Except AppError (List PublishCollabItem)
  | 0, _, acc => .ok acc
  | fuel + 1, bytes, acc =>
    match readU32LittleEndian bytes with
    | .error e => .error e
    | .ok (meta_len, rest) =>
      if meta_len > 4 * 1024 * 1024 then
        .error (.invalidRequest "metadata too large")
      else if meta_len = 0 then .ok acc
      else
        match readExact rest meta_len with
        | .error e => .error e
        | .ok (meta_buffer, rest2) =>
          match env.decode_meta meta_buffer with
          | .error e => .error (.serde e)
          | .ok meta =>
            match readU32LittleEndian rest2 with
            | .error e => .error e
            | .ok (data_len, rest3) =>
              if data_len > 32 * 1024 * 1024 then
                .error (.invalidRequest "data too large")
              else
                match readExact rest3 data_len with
                | .error e => .error e
                | .ok (data_buffer, rest4) =>
                  publishLoopFuel env fuel rest4 (acc ++ [⟨meta, data_buffer⟩])

/-- The publish accumulation loop on a finite stream. -/
def publishCollabLoop (env : PublishEnv) (bytes : List Nat)
    (acc : List PublishCollabItem) : Except AppError (List PublishCollabItem) :=
  publishLoopFuel env (bytes.length + 1) bytes acc

/-- Publish endpoint handler (lines 1415-1466): accumulate meta/data pairs,
reject an empty accumulator, then hand the items to the publish store. The
`ok` value is the item list handed to the store. -/
def post_publish_collabs_handler (env : PublishEnv) (payload : List Nat) :
    Except AppError (List PublishCollabItem) :=
  match publishCollabLoop env payload [] with
  | .error e => .error e
  | .ok accumulator =>
    if accumulator.isEmpty then
      .error (.invalidRequest "did not receive any data to publish")
    else
      match env.publish_collabs accumulator with
      | .error e => .error e
      | .ok _ => .ok accumulator

/-! ## Auxiliary definitions used by the theorems -/

/-- The frame state reached after receiving exactly the bytes `bs`:
buffer `bs`, with all complete frames extracted from offset 0. -/
def framesOf (bs : List Nat) : FrameState :=
  ⟨bs, (extractFrames bs 0 []).1, (extractFrames bs 0 []).2⟩

/-- A record with its enrichment field cleared, for comparing persisted
records with accepted records up to embedding attachment. -/
def stripEmbeddings (p : CollabParams) : CollabParams :=
  { p with embeddings := none }

/-- Decidable equality for `Except`, so concrete handler outcomes can be
settled by evaluation. -/
instance {ε α : Type} [DecidableEq ε] [DecidableEq α] : DecidableEq (Except ε α) := fun a b =>
  match a, b with
  | .ok x, .ok y =>
    if h : x = y then isTrue (by rw [h]) else isFalse (by intro hc; cases hc; exact h rfl)
  | .error e, .error f =>
    if h : e = f then isTrue (by rw [h]) else isFalse (by intro hc; cases hc; exact h rfl)
  | .ok _, .error _ => isFalse (by intro hc; cases hc)
  | .error _, .ok _ => isFalse (by intro hc; cases hc)

/-! ## Concrete fixtures

Small closed environments and inputs on which the theorems below are
instantiated; oracles are trivial stand-ins for the external codecs. -/

def sampleRecord1 : CollabParams := ⟨"obj-1", [1], .document, none⟩

def sampleOracle : BatchOracle where
  decompress := fun _ data => .ok data
  from_bytes := fun data => if data = [1] then some sampleRecord1 else none
  validate := fun _ => true
  validate_encode_collab := fun _ _ _ => true

def sampleBatchEnv : BatchCollabEnv where
  get_user_uid := .ok 7
  compress_type := .ok (.brotli 0)
  oracle := sampleOracle
  spawn_ok := true
  can_index_workspace := fun _ => .ok false
  create_collab_embeddings := fun _ => .ok none
  batch_insert_new_collab := fun _ _ _ => .ok ()

/-- Two frames: the first deserializes, the second is rejected. -/
def sampleBatchPayload : List (Except String (List Nat)) :=
  [.ok [0, 0, 0, 1, 1, 0, 0, 0, 1, 9]]

/-- One frame, the accepted one of `sampleBatchPayload`. -/
def sampleBatchPayloadOneFrame : List (Except String (List Nat)) :=
  [.ok [0, 0, 0, 1, 1]]

/-- One frame whose record is rejected by deserialization. -/
def rejectedOnlyPayload : List (Except String (List Nat)) :=
  [.ok [0, 0, 0, 1, 9]]

def c3RecordA : CollabParams := ⟨"obj-a", [2], .document, none⟩

def c3RecordB : CollabParams := ⟨"obj-b", [3], .document, none⟩

def c3Oracle : BatchOracle where
  decompress := fun _ data => .ok data
  from_bytes := fun data =>
    if data = [2] then some c3RecordA
    else if data = [3] then some c3RecordB
    else none
  validate := fun _ => true
  validate_encode_collab := fun _ _ _ => true

/-- Embedding oracle that fails for the first record and succeeds with a
concrete embedding for every other record. -/
def c3Embed : CollabParams → Except AppError (Option AFCollabEmbeddings) :=
  fun p =>
    if p.object_id = "obj-a" then .error (.externalError "embedding backend down")
    else .ok (some ⟨5⟩)

def c3BatchEnv : BatchCollabEnv where
  get_user_uid := .ok 7
  compress_type := .ok (.brotli 0)
  oracle := c3Oracle
  spawn_ok := true
  can_index_workspace := fun _ => .ok true
  create_collab_embeddings := c3Embed
  batch_insert_new_collab := fun _ _ _ => .ok ()

/-- Two frames carrying records a and b. -/
def c3Payload : List (Except String (List Nat)) :=
  [.ok [0, 0, 0, 1, 2, 0, 0, 0, 1, 3]]

def sampleCreateEnv : CreateCollabEnv where
  get_user_uid := .ok 7
  check_encode_collab := fun _ => .ok ()
  can_index_workspace := fun _ => .ok false
  create_collab_embeddings := fun _ => .ok none
  begin_transaction := .ok ()
  insert_new_collab := fun _ _ _ => .ok ()
  commit_transaction := .ok ()

/-- A Folder-typed record whose object id equals its workspace id. -/
def folderAsWorkspaceParams : CreateCollabParams := ⟨"ws-1", "ws-1", [1], .folder⟩

def sampleCreateParams : CreateCollabParams := ⟨"ws-1", "obj-1", [1], .document⟩

def indexErrorCreateEnv : CreateCollabEnv :=
  { sampleCreateEnv with can_index_workspace := fun _ => .error (.externalError "indexer unavailable") }

def indexErrorBatchEnv : BatchCollabEnv :=
  { sampleBatchEnv with can_index_workspace := fun _ => .error (.externalError "indexer unavailable") }

def sampleRealtimeEnv : RealtimeEnv where
  device_id_header := .ok "device-1"
  get_user_uid := .ok 7
  decode_outer := fun bytes => .ok ⟨"device-1", bytes⟩
  compression_header := none
  blocking_decompress := fun _ data => .ok data
  decode_inner := fun _ => .ok ⟨1⟩
  try_send := fun _ => .error .full

def okSinkRealtimeEnv : RealtimeEnv :=
  { sampleRealtimeEnv with try_send := fun _ => .ok () }

def badOuterRealtimeEnv : RealtimeEnv :=
  { sampleRealtimeEnv with decode_outer := fun _ => .error "invalid protobuf envelope" }

def badInnerRealtimeEnv : RealtimeEnv :=
  { sampleRealtimeEnv with
      decode_inner := fun _ => .error "bad message",
      try_send := fun _ => .ok () }

def brotliFailRealtimeEnv : RealtimeEnv :=
  { sampleRealtimeEnv with
      compression_header := some (.ok (.brotli 4)),
      blocking_decompress := fun _ _ => .error (.invalidRequest "decompressed size exceeds the buffer size") }

def samplePublishEnv : PublishEnv where
  decode_meta := fun bytes => .ok ⟨bytes.length⟩
  publish_collabs := fun _ => .ok ()

/-- A metadata header declaring 4 MiB + 1 bytes, with no body following. -/
def oversizeMetaBytes : List Nat := [1, 0, 64, 0]

/-- One complete meta/data pair followed by the zero-length sentinel. -/
def onePairPublishBytes : List Nat :=
  [1, 0, 0, 0, 42, 2, 0, 0, 0, 8, 9, 0, 0, 0, 0]

/-- A complete metadata frame followed by a data header declaring
32 MiB + 1 bytes. -/
def oversizeDataBytes : List Nat := [1, 0, 0, 0, 42, 1, 0, 0, 2]

/-! ## Frame-codec lemmas -/

/-- Fuel irrelevance: any fuel exceeding the remaining byte count gives the
same extraction result, so the fuelled loop models the source's unbounded
loop. -/
theorem extractFramesFuel_congr (buffer : List Nat) :
    ∀ f1 f2 off acc, buffer.length - off < f1 → buffer.length - off < f2 →
      extractFramesFuel f1 buffer off acc = extractFramesFuel f2 buffer off acc := by
  intro f1
  induction f1 with
  | zero => intro f2 off acc h1 _; omega
  | succ f ih =>
    intro f2 off acc h1 h2
    match f2 with
    | 0 => omega
    | f2' + 1 =>
      simp only [extractFramesFuel]
      by_cases h4 : off + 4 ≤ buffer.length
      · rw [if_pos h4, if_pos h4]
        by_cases hs : off + 4 + frameSize buffer off ≤ buffer.length
        · rw [if_pos hs, if_pos hs]
          exact ih f2' (off + 4 + frameSize buffer off)
            (acc ++ [(off + 4, frameSize buffer off)]) (by omega) (by omega)
        · rw [if_neg hs, if_neg hs]
      · rw [if_neg h4, if_neg h4]

/-- Stepping equation: when a complete frame sits at `off`, the loop emits
its span and continues past it. -/
theorem extractFrames_emit (buffer : List Nat) (off : Nat) (acc : List (Nat × Nat))
    (h4 : off + 4 ≤ buffer.length)
    (hs : off + 4 + frameSize buffer off ≤ buffer.length) :
    extractFrames buffer off acc =
      extractFrames buffer (off + 4 + frameSize buffer off)
        (acc ++ [(off + 4, frameSize buffer off)]) := by
  unfold extractFrames
  have h1 : extractFramesFuel (buffer.length + 1) buffer off acc
      = extractFramesFuel buffer.length buffer (off + 4 + frameSize buffer off)
          (acc ++ [(off + 4, frameSize buffer off)]) := by
    simp only [extractFramesFuel]
    rw [if_pos h4, if_pos hs]
  rw [h1]
  exact extractFramesFuel_congr buffer _ _ _ _ (by omega) (by omega)

/-- Halting equation: no complete length header at `off`. -/
theorem extractFrames_halt_header (buffer : List Nat) (off : Nat)
    (acc : List (Nat × Nat)) (h4 : ¬ off + 4 ≤ buffer.length) :
    extractFrames buffer off acc = (acc, off) := by
  unfold extractFrames
  simp only [extractFramesFuel]
  rw [if_neg h4]

/-- Halting equation: the frame at `off` is still incomplete. -/
theorem extractFrames_halt_body (buffer : List Nat) (off : Nat)
    (acc : List (Nat × Nat)) (h4 : off + 4 ≤ buffer.length)
    (hs : ¬ off + 4 + frameSize buffer off ≤ buffer.length) :
    extractFrames buffer off acc = (acc, off) := by
  unfold extractFrames
  simp only [extractFramesFuel]
  rw [if_pos h4, if_neg hs]

/-- A length header read entirely inside the prefix is unchanged by
appending further bytes. -/
theorem frameSize_append (bs c : List Nat) (off : Nat) (h : off + 4 ≤ bs.length) :
    frameSize (bs ++ c) off = frameSize bs off := by
  unfold frameSize
  rw [List.getD_append bs c 0 off (by omega),
      List.getD_append bs c 0 (off + 1) (by omega),
      List.getD_append bs c 0 (off + 2) (by omega),
      List.getD_append bs c 0 (off + 3) (by omega)]

/-- Restart equivalence: extracting from the extended buffer from scratch
factors through the frames already extracted from the old buffer. -/
theorem extractFrames_append_aux (bs c : List Nat) :
    ∀ fuel off acc, bs.length - off < fuel →
      extractFrames (bs ++ c) off acc =
        extractFrames (bs ++ c) (extractFramesFuel fuel bs off acc).2
          (extractFramesFuel fuel bs off acc).1 := by
  intro fuel
  induction fuel with
  | zero => intro off acc h; omega
  | succ f ih =>
    intro off acc h
    by_cases h4 : off + 4 ≤ bs.length
    · by_cases hs : off + 4 + frameSize bs off ≤ bs.length
      · have hr : extractFramesFuel (f + 1) bs off acc
            = extractFramesFuel f bs (off + 4 + frameSize bs off)
                (acc ++ [(off + 4, frameSize bs off)]) := by
          simp only [extractFramesFuel]
          rw [if_pos h4, if_pos hs]
        rw [hr]
        have hlen : bs.length ≤ (bs ++ c).length := by
          simp [List.length_append]
        have hsize : frameSize (bs ++ c) off = frameSize bs off :=
          frameSize_append bs c off h4
        have step : extractFrames (bs ++ c) off acc
            = extractFrames (bs ++ c) (off + 4 + frameSize bs off)
                (acc ++ [(off + 4, frameSize bs off)]) := by
          have e := extractFrames_emit (bs ++ c) off acc (by omega)
            (by rw [hsize]; omega)
          rw [hsize] at e
          exact e
        rw [step]
        exact ih (off + 4 + frameSize bs off) (acc ++ [(off + 4, frameSize bs off)])
          (by omega)
      · have hr : extractFramesFuel (f + 1) bs off acc = (acc, off) := by
          simp only [extractFramesFuel]
          rw [if_pos h4, if_neg hs]
        rw [hr]
    · have hr : extractFramesFuel (f + 1) bs off acc = (acc, off) := by
        simp only [extractFramesFuel]
        rw [if_neg h4]
      rw [hr]

/-- Restart equivalence at the loop interface. -/
theorem extractFrames_append (bs c : List Nat) (off : Nat) (acc : List (Nat × Nat)) :
    extractFrames (bs ++ c) off acc =
      extractFrames (bs ++ c) (extractFrames bs off acc).2 (extractFrames bs off acc).1 :=
  extractFrames_append_aux bs c (bs.length + 1) off acc (by omega)

/-- Receiving one more chunk on a fully extracted state yields the fully
extracted state of the extended byte sequence. -/
theorem processChunk_framesOf (bs c : List Nat) :
    processChunk (framesOf bs) c = framesOf (bs ++ c) := by
  unfold processChunk framesOf
  simp only
  rw [← extractFrames_append bs c 0 []]

/-- Folding the receipt step over chunks reaches the fully extracted state
of their concatenation. -/
theorem foldl_processChunk (cs : List (List Nat)) :
    ∀ bs, cs.foldl processChunk (framesOf bs) = framesOf (bs ++ cs.flatten) := by
  induction cs with
  | nil => intro bs; simp
  | cons c cs ih =>
    intro bs
    simp only [List.foldl_cons, processChunk_framesOf, List.flatten_cons]
    rw [ih (bs ++ c), List.append_assoc]

/-- The receipt loop ignores error chunks: folding over the item stream is
folding `processChunk` over the successfully received chunks. -/
theorem accumulatePayload_foldl (items : List (Except String (List Nat))) :
    ∀ st : FrameState,
      items.foldl
        (fun st item =>
          match item with
          | .ok bytes => processChunk st bytes
          | .error _ => st) st
      = (okChunks items).foldl processChunk st := by
  induction items with
  | nil => intro st; simp [okChunks]
  | cons item rest ih =>
    intro st
    cases item with
    | ok bytes =>
      simp only [okChunks, List.filterMap_cons, List.foldl_cons]
      exact ih (processChunk st bytes)
    | error e =>
      simp only [okChunks, List.filterMap_cons, List.foldl_cons]
      exact ih st

/-- The initial frame state is the fully extracted state of no bytes. -/
theorem framesOf_nil : framesOf [] = FrameState.initial := rfl

/-- Master equation of the accumulation loop: the final state is the fully
extracted state of the concatenation of the successfully received chunks,
independent of chunk boundaries and of interleaved error chunks. -/
theorem accumulatePayload_spec (items : List (Except String (List Nat))) :
    accumulatePayload items = framesOf (okChunks items).flatten := by
  unfold accumulatePayload
  rw [accumulatePayload_foldl items FrameState.initial, ← framesOf_nil,
      foldl_processChunk (okChunks items) [], List.nil_append]

/-- Error-free streams deliver every chunk. -/
theorem okChunks_map_ok (cs : List (List Nat)) :
    okChunks (cs.map Except.ok) = cs := by
  induction cs with
  | nil => rfl
  | cons c cs ih =>
    simp only [okChunks, List.map_cons, List.filterMap_cons] at ih ⊢
    rw [ih]

/-- Every span the extraction loop emits lies entirely inside the buffer
and starts past its own 4-byte header. -/
theorem extractFramesFuel_mem (buffer : List Nat) :
    ∀ fuel off acc p, (∀ q ∈ acc, 4 ≤ q.1 ∧ q.1 + q.2 ≤ buffer.length) →
      p ∈ (extractFramesFuel fuel buffer off acc).1 →
      4 ≤ p.1 ∧ p.1 + p.2 ≤ buffer.length := by
  intro fuel
  induction fuel with
  | zero => intro off acc p hacc hp; exact hacc p hp
  | succ f ih =>
    intro off acc p hacc hp
    simp only [extractFramesFuel] at hp
    by_cases h4 : off + 4 ≤ buffer.length
    · rw [if_pos h4] at hp
      by_cases hs : off + 4 + frameSize buffer off ≤ buffer.length
      · rw [if_pos hs] at hp
        refine ih (off + 4 + frameSize buffer off)
          (acc ++ [(off + 4, frameSize buffer off)]) p ?_ hp
        intro q hq
        rcases List.mem_append.mp hq with hq1 | hq2
        · exact hacc q hq1
        · rcases List.mem_singleton.mp hq2 with rfl
          constructor
          · omega
          · simpa using hs
      · rw [if_neg hs] at hp
        exact hacc p hp
    · rw [if_neg h4] at hp
      exact hacc p hp

/-! ## Embedding-join lemmas -/

/-- A successful fail-fast join returns one result per future. -/
theorem try_join_all_ok_length {α : Type} :
    ∀ (futures : List (Except AppError α)) (xs : List α),
      try_join_all futures = .ok xs → xs.length = futures.length := by
  intro futures
  induction futures with
  | nil =>
    intro xs h
    simp only [try_join_all] at h
    cases h
    rfl
  | cons f rest ih =>
    intro xs h
    simp only [try_join_all] at h
    cases f with
    | error e => cases h
    | ok a =>
      cases hr : try_join_all rest with
      | error e => rw [hr] at h; cases h
      | ok ys =>
        rw [hr] at h
        cases h
        simp [ih ys hr]

/-- Attaching embeddings by index changes no field except `embeddings`. -/
theorem zipWith_strip (params : List CollabParams) :
    ∀ results : List (Option AFCollabEmbeddings), params.length = results.length →
      (params.zipWith (fun p emb => { p with embeddings := emb }) results).map
          stripEmbeddings
        = params.map stripEmbeddings := by
  induction params with
  | nil => intro results h; simp
  | cons p ps ih =>
    intro results h
    cases results with
    | nil => simp at h
    | cons r rs =>
      simp only [List.zipWith_cons_cons, List.map_cons]
      rw [ih rs (by simpa using h)]
      simp [stripEmbeddings]

/-- A successful embedding fan-out alters records only in their
`embeddings` field. -/
theorem fetch_embeddings_ok_strip
    (f : CollabParams → Except AppError (Option AFCollabEmbeddings))
    (params updated : List CollabParams)
    (h : fetch_embeddings f params = .ok updated) :
    updated.map stripEmbeddings = params.map stripEmbeddings := by
  unfold fetch_embeddings at h
  cases hj : try_join_all (params.map f) with
  | error e => rw [hj] at h; cases h
  | ok results =>
    rw [hj] at h
    cases h
    exact zipWith_strip params results
      (by rw [try_join_all_ok_length (params.map f) results hj, List.length_map])

/-- The fail-fast join reports an error whenever any listed future fails. -/
theorem try_join_all_error_of_mem {α : Type} :
    ∀ (futures : List (Except AppError α)) (e : AppError),
      Except.error e ∈ futures → ∃ e2, try_join_all futures = .error e2 := by
  intro futures
  induction futures with
  | nil => intro e h; cases h
  | cons f rest ih =>
    intro e h
    cases f with
    | error e1 => exact ⟨e1, rfl⟩
    | ok a =>
      have hmem : Except.error e ∈ rest := by
        rcases List.mem_cons.mp h with h1 | h2
        · cases h1
        · exact h2
      rcases ih e hmem with ⟨e2, he2⟩
      refine ⟨e2, ?_⟩
      simp only [try_join_all, he2]

/-! ## Publish-reader lemmas -/

/-- A successful length-header read consumes exactly 4 bytes. -/
theorem readU32LittleEndian_length (bytes rest : List Nat) (n : Nat)
    (h : readU32LittleEndian bytes = .ok (n, rest)) :
    rest.length + 4 = bytes.length := by
  match bytes with
  | [] => cases h
  | [_] => cases h
  | [_, _] => cases h
  | [_, _, _] => cases h
  | b0 :: b1 :: b2 :: b3 :: tail =>
    simp only [readU32LittleEndian] at h
    cases h
    simp

/-- A successful exact read consumes exactly the requested bytes. -/
theorem readExact_length (bytes out rest : List Nat) (n : Nat)
    (h : readExact bytes n = .ok (out, rest)) :
    rest.length + n = bytes.length ∧ n ≤ bytes.length := by
  unfold readExact at h
  by_cases hle : n ≤ bytes.length
  · rw [if_pos hle] at h
    cases h
    constructor
    · simp [List.length_drop]; omega
    · exact hle
  · rw [if_neg hle] at h
    cases h

/-- Fuel irrelevance for the publish loop: any fuel exceeding the remaining
byte count gives the same result, so the fuelled loop models the source's
unbounded loop. -/
theorem publishLoopFuel_congr (env : PublishEnv) :
    ∀ f1 f2 bytes acc, bytes.length < f1 → bytes.length < f2 →
      publishLoopFuel env f1 bytes acc = publishLoopFuel env f2 bytes acc := by
  intro f1
  induction f1 with
  | zero => intro f2 bytes acc h1 _; omega
  | succ f ih =>
    intro f2 bytes acc h1 h2
    match f2 with
    | 0 => omega
    | f2' + 1 =>
      simp only [publishLoopFuel]
      cases hu : readU32LittleEndian bytes with
      | error e => rfl
      | ok pair =>
        obtain ⟨meta_len, rest⟩ := pair
        dsimp only
        have hlen := readU32LittleEndian_length bytes rest meta_len hu
        by_cases hm : meta_len > 4 * 1024 * 1024
        · rw [if_pos hm, if_pos hm]
        · rw [if_neg hm, if_neg hm]
          by_cases hz : meta_len = 0
          · rw [if_pos hz, if_pos hz]
          · rw [if_neg hz, if_neg hz]
            cases hr : readExact rest meta_len with
            | error e => rfl
            | ok pair2 =>
              obtain ⟨meta_buffer, rest2⟩ := pair2
              dsimp only
              have hlen2 := readExact_length rest meta_buffer rest2 meta_len hr
              cases hd : env.decode_meta meta_buffer with
              | error e => rfl
              | ok meta =>
                cases hu2 : readU32LittleEndian rest2 with
                | error e => rfl
                | ok pair3 =>
                  obtain ⟨data_len, rest3⟩ := pair3
                  dsimp only
                  have hlen3 := readU32LittleEndian_length rest2 rest3 data_len hu2
                  by_cases hdl : data_len > 32 * 1024 * 1024
                  · rw [if_pos hdl, if_pos hdl]
                  · rw [if_neg hdl, if_neg hdl]
                    cases hr2 : readExact rest3 data_len with
                    | error e => rfl
                    | ok pair4 =>
                      obtain ⟨data_buffer, rest4⟩ := pair4
                      dsimp only
                      have hlen4 := readExact_length rest3 data_buffer rest4 data_len hr2
                      exact ih f2' rest4 (acc ++ [⟨meta, data_buffer⟩])
                        (by omega) (by omega)

/-! ## Claim C7 -/

/-- C7: the (offset, length) frame spans extracted from the accumulated
batch body are independent of how the bytes are chunked across receipt
events, and every recorded span starts past its 4-byte big-endian length
header and lies entirely within the buffered bytes, so an incomplete
trailing frame is never emitted. -/
theorem c7_frame_spans_chunk_independent :
    (∀ cs1 cs2 : List (List Nat), cs1.flatten = cs2.flatten →
      accumulatePayload (cs1.map Except.ok) = accumulatePayload (cs2.map Except.ok))
    ∧ (∀ items p, p ∈ (accumulatePayload items).offset_len_list →
        4 ≤ p.1 ∧ p.1 + p.2 ≤ (accumulatePayload items).payload_buffer.length) := by
  constructor
  · intro cs1 cs2 h
    rw [accumulatePayload_spec, accumulatePayload_spec, okChunks_map_ok,
        okChunks_map_ok, h]
  · intro items p hp
    rw [accumulatePayload_spec] at hp ⊢
    simp only [framesOf, extractFrames] at hp ⊢
    exact extractFramesFuel_mem (okChunks items).flatten _ 0 [] p
      (by intro q hq; cases hq) hp

/-- C7 witness: a two-chunk split of one frame equals the unsplit stream,
and the extracted span of that frame is in bounds. -/
theorem c7_frame_spans_chunk_independent_witness :
    accumulatePayload ([[0, 0], [0, 2, 7, 8]].map Except.ok)
      = accumulatePayload ([[0, 0, 0, 2, 7, 8]].map Except.ok)
    ∧ (4 ≤ (4, 2).1
      ∧ (4, 2).1 + (4, 2).2
        ≤ (accumulatePayload [Except.ok [0, 0, 0, 2, 7, 8]]).payload_buffer.length) :=
  ⟨c7_frame_spans_chunk_independent.1 [[0, 0], [0, 2, 7, 8]] [[0, 0, 0, 2, 7, 8]] rfl,
    c7_frame_spans_chunk_independent.2 [Except.ok [0, 0, 0, 2, 7, 8]] (4, 2) (by decide)⟩

/-! ## Claim C10 -/

/-- C10: a chunk arriving as a stream error is silently skipped by the
batch accumulation loop — the handler behaves exactly as if the error
chunks were absent, so extraction continues over the bytes received so far
and the request is never failed because of a read error (which can
silently truncate the set of submitted frames). -/
theorem c10_error_chunks_silently_skipped :
    ∀ (env : BatchCollabEnv) (ws : String) (items : List (Except String (List Nat))),
      batch_create_collab_handler env ws items
        = batch_create_collab_handler env ws ((okChunks items).map Except.ok) := by
  intro env ws items
  have h : accumulatePayload items = accumulatePayload ((okChunks items).map Except.ok) := by
    rw [accumulatePayload_spec, accumulatePayload_spec, okChunks_map_ok]
  unfold batch_create_collab_handler acceptedSet
  rw [h]

/-! ## Claim C1 -/

/-- C1 counterexample: a Folder-typed record whose object id equals its
workspace id is rejected all the same — the check at lines 613-619 never
exempts the Folder collab type. -/
theorem c1_counterexample_folder_also_rejected :
    create_collab_handler sampleCreateEnv (.ok folderAsWorkspaceParams)
      = .error (.invalidRequest "object_id cannot be the same as workspace_id") := by
  decide

/-- C1 amended: a single-record create submission with
`object_id == workspace_id` is rejected with an InvalidRequest error for
every collab type, Folder included (such objects must be created through
the create-workspace API instead). -/
theorem c1_object_equals_workspace_always_rejected :
    ∀ (env : CreateCollabEnv) (p : CreateCollabParams) (uid : Int),
      env.get_user_uid = .ok uid →
      p.object_id = p.workspace_id →
      create_collab_handler env (.ok p)
        = .error (.invalidRequest "object_id cannot be the same as workspace_id") := by
  intro env p uid h1 h3
  unfold create_collab_handler
  rw [h1]
  dsimp only
  simp only [CreateCollabParams.split]
  rw [if_pos h3]

/-- C1 witness: the amended rejection at a concrete Folder-typed input. -/
theorem c1_object_equals_workspace_always_rejected_witness :
    create_collab_handler sampleCreateEnv
        (.ok ⟨"ws-9", "ws-9", [1], CollabType.folder⟩)
      = .error (.invalidRequest "object_id cannot be the same as workspace_id") :=
  c1_object_equals_workspace_always_rejected sampleCreateEnv
    ⟨"ws-9", "ws-9", [1], CollabType.folder⟩ 7 rfl rfl

/-! ## Claim C9 -/

/-- C9: an error from the per-workspace indexing-eligibility check itself
propagates out of both the single-record and the batch handler, failing the
whole submission; the conclusion holds for every storage oracle, so nothing
is persisted. Only the embedding computation is best-effort. -/
theorem c9_eligibility_error_fails_submission :
    (∀ (env : CreateCollabEnv) (p : CreateCollabParams) (uid : Int) (e : AppError),
      env.get_user_uid = .ok uid →
      p.object_id ≠ p.workspace_id →
      env.check_encode_collab p.split.1 = .ok () →
      env.can_index_workspace p.workspace_id = .error e →
      create_collab_handler env (.ok p) = .error e)
    ∧ (∀ (env : BatchCollabEnv) (ws : String)
        (payload : List (Except String (List Nat))) (uid : Int) (bufsize : Nat)
        (e : AppError),
      env.get_user_uid = .ok uid →
      env.compress_type = .ok (.brotli bufsize) →
      env.spawn_ok = true →
      acceptedSet env.oracle bufsize payload ≠ [] →
      env.can_index_workspace ws = .error e →
      batch_create_collab_handler env ws payload = .error e) := by
  constructor
  · intro env p uid e h1 h2 h3 h4
    unfold create_collab_handler
    rw [h1]
    dsimp only
    simp only [CreateCollabParams.split]
    simp only [CreateCollabParams.split] at h3
    rw [if_neg h2, h3]
    dsimp only
    rw [h4]
  · intro env ws payload uid bufsize e h1 h2 h3 hne h5
    unfold batch_create_collab_handler
    rw [h1, h2]
    dsimp only
    rw [h3, if_pos rfl]
    cases hE : (acceptedSet env.oracle bufsize payload).isEmpty with
    | true => exact absurd (List.isEmpty_iff.mp hE) hne
    | false =>
      rw [if_neg Bool.false_ne_true]
      rw [h5]

/-- C9 witness: both handlers fail with the indexer's own error on concrete
inputs. -/
theorem c9_eligibility_error_fails_submission_witness :
    create_collab_handler indexErrorCreateEnv (.ok sampleCreateParams)
        = .error (.externalError "indexer unavailable")
    ∧ batch_create_collab_handler indexErrorBatchEnv "ws-1" sampleBatchPayloadOneFrame
        = .error (.externalError "indexer unavailable") :=
  ⟨c9_eligibility_error_fails_submission.1 indexErrorCreateEnv sampleCreateParams 7
      (.externalError "indexer unavailable") rfl (by decide) rfl rfl,
    c9_eligibility_error_fails_submission.2 indexErrorBatchEnv "ws-1"
      sampleBatchPayloadOneFrame 7 0 (.externalError "indexer unavailable") rfl rfl rfl
      (by decide) rfl⟩

/-! ## Claim C2 -/

/-- C2: the records handed to persistence are exactly the accepted subset
of the framed records (those that decompress, deserialize, pass field
validation and encoded-state validation), up to the embeddings attached by
enrichment; invalid records are dropped silently; the call succeeds
whenever the accepted set is non-empty and the downstream effects succeed;
and the outcome depends on the payload only through the accepted set, so
the response carries no indication of how many records were dropped. -/
theorem c2_batch_persists_accepted_subset :
    (∀ (env : BatchCollabEnv) (ws : String)
        (payload : List (Except String (List Nat))) (uid : Int) (bufsize : Nat)
        (can : Bool),
      env.get_user_uid = .ok uid →
      env.compress_type = .ok (.brotli bufsize) →
      env.spawn_ok = true →
      env.can_index_workspace ws = .ok can →
      acceptedSet env.oracle bufsize payload ≠ [] →
      (∀ l, l.map stripEmbeddings
          = (acceptedSet env.oracle bufsize payload).map stripEmbeddings →
        env.batch_insert_new_collab ws uid l = .ok ()) →
      ∃ final, batch_create_collab_handler env ws payload = .ok final
        ∧ final.map stripEmbeddings
          = (acceptedSet env.oracle bufsize payload).map stripEmbeddings)
    ∧ (∀ (env : BatchCollabEnv) (ws : String)
        (payload : List (Except String (List Nat))) (final : List CollabParams)
        (bufsize : Nat),
      env.compress_type = .ok (.brotli bufsize) →
      batch_create_collab_handler env ws payload = .ok final →
      final.map stripEmbeddings
        = (acceptedSet env.oracle bufsize payload).map stripEmbeddings)
    ∧ (∀ (env : BatchCollabEnv) (ws : String)
        (p1 p2 : List (Except String (List Nat))) (bufsize : Nat),
      env.compress_type = .ok (.brotli bufsize) →
      acceptedSet env.oracle bufsize p1 = acceptedSet env.oracle bufsize p2 →
      batch_create_collab_handler env ws p1 = batch_create_collab_handler env ws p2) := by
  refine ⟨?_, ?_, ?_⟩
  · intro env ws payload uid bufsize can h1 h2 h3 h4 hne hins
    unfold batch_create_collab_handler
    rw [h1, h2]
    dsimp only
    rw [h3, if_pos rfl]
    cases hE : (acceptedSet env.oracle bufsize payload).isEmpty with
    | true => exact absurd (List.isEmpty_iff.mp hE) hne
    | false =>
      rw [if_neg Bool.false_ne_true, h4]
      dsimp only
      cases can with
      | false =>
        rw [if_neg Bool.false_ne_true,
            hins (acceptedSet env.oracle bufsize payload) rfl]
        exact ⟨acceptedSet env.oracle bufsize payload, rfl, rfl⟩
      | true =>
        rw [if_pos rfl]
        cases hf : fetch_embeddings env.create_collab_embeddings
            (acceptedSet env.oracle bufsize payload) with
        | error e =>
          dsimp only
          rw [hins (acceptedSet env.oracle bufsize payload) rfl]
          exact ⟨acceptedSet env.oracle bufsize payload, rfl, rfl⟩
        | ok updated =>
          dsimp only
          have hstrip := fetch_embeddings_ok_strip env.create_collab_embeddings
            (acceptedSet env.oracle bufsize payload) updated hf
          rw [hins updated hstrip]
          exact ⟨updated, rfl, hstrip⟩
  · intro env ws payload final bufsize h2 h
    unfold batch_create_collab_handler at h
    rw [h2] at h
    cases hu : env.get_user_uid with
    | error e => rw [hu] at h; simp at h
    | ok uid =>
      rw [hu] at h
      dsimp only at h
      cases hs : env.spawn_ok with
      | false => rw [hs] at h; simp at h
      | true =>
        rw [hs, if_pos rfl] at h
        cases hE : (acceptedSet env.oracle bufsize payload).isEmpty with
        | true => rw [hE] at h; simp at h
        | false =>
          rw [hE, if_neg Bool.false_ne_true] at h
          cases hc : env.can_index_workspace ws with
          | error e => rw [hc] at h; simp at h
          | ok can =>
            rw [hc] at h
            dsimp only at h
            cases can with
            | false =>
              rw [if_neg Bool.false_ne_true] at h
              cases hi : env.batch_insert_new_collab ws uid
                  (acceptedSet env.oracle bufsize payload) with
              | error e => rw [hi] at h; simp at h
              | ok u =>
                rw [hi] at h
                dsimp only at h
                cases h
                rfl
            | true =>
              rw [if_pos rfl] at h
              cases hf : fetch_embeddings env.create_collab_embeddings
                  (acceptedSet env.oracle bufsize payload) with
              | error e =>
                rw [hf] at h
                dsimp only at h
                cases hi : env.batch_insert_new_collab ws uid
                    (acceptedSet env.oracle bufsize payload) with
                | error e2 => rw [hi] at h; simp at h
                | ok u =>
                  rw [hi] at h
                  dsimp only at h
                  cases h
                  rfl
              | ok updated =>
                rw [hf] at h
                dsimp only at h
                cases hi : env.batch_insert_new_collab ws uid updated with
                | error e2 => rw [hi] at h; simp at h
                | ok u =>
                  rw [hi] at h
                  dsimp only at h
                  cases h
                  exact fetch_embeddings_ok_strip env.create_collab_embeddings _ _ hf
  · intro env ws p1 p2 bufsize h2 hacc
    unfold batch_create_collab_handler
    rw [h2]
    cases hu : env.get_user_uid with
    | error e => rfl
    | ok uid =>
      dsimp only
      rw [hacc]

/-- C2 witness: a two-frame payload whose second frame is rejected persists
exactly the first record and succeeds; the handler result equals that of a
payload containing only the accepted frame. -/
theorem c2_batch_persists_accepted_subset_witness :
    (∃ final, batch_create_collab_handler sampleBatchEnv "ws-1" sampleBatchPayload
        = .ok final
      ∧ final.map stripEmbeddings
        = (acceptedSet sampleBatchEnv.oracle 0 sampleBatchPayload).map stripEmbeddings)
    ∧ batch_create_collab_handler sampleBatchEnv "ws-1" sampleBatchPayload
      = batch_create_collab_handler sampleBatchEnv "ws-1" sampleBatchPayloadOneFrame :=
  ⟨c2_batch_persists_accepted_subset.1 sampleBatchEnv "ws-1" sampleBatchPayload 7 0
      false rfl rfl rfl rfl (by decide) (fun _ _ => rfl),
    c2_batch_persists_accepted_subset.2.2 sampleBatchEnv "ws-1" sampleBatchPayload
      sampleBatchPayloadOneFrame 0 rfl (by decide)⟩

/-! ## Claim C5 -/

/-- C5 counterexample: the batch handler returns the identical
`InvalidRequest "Empty collab params list"` error for a payload with no
records at all and for a payload whose only framed record is rejected by
validation — the two situations are not distinguished. -/
theorem c5_counterexample_same_error_for_empty_and_all_rejected :
    batch_create_collab_handler sampleBatchEnv "ws-1" []
        = .error (.invalidRequest "Empty collab params list")
      ∧ batch_create_collab_handler sampleBatchEnv "ws-1" rejectedOnlyPayload
        = .error (.invalidRequest "Empty collab params list")
      ∧ batch_create_collab_handler sampleBatchEnv "ws-1" []
        = batch_create_collab_handler sampleBatchEnv "ws-1" rejectedOnlyPayload := by
  refine ⟨by decide, by decide, by decide⟩

/-- C5 amended: whenever the accepted set is empty — whether the payload
contained no records at all or every framed record was rejected — the
batch call fails with the same `InvalidRequest "Empty collab params list"`
error; the two cases are not distinguishable from the response. -/
theorem c5_empty_and_all_rejected_same_error :
    ∀ (env : BatchCollabEnv) (ws : String)
      (payload : List (Except String (List Nat))) (uid : Int) (bufsize : Nat),
      env.get_user_uid = .ok uid →
      env.compress_type = .ok (.brotli bufsize) →
      env.spawn_ok = true →
      acceptedSet env.oracle bufsize payload = [] →
      batch_create_collab_handler env ws payload
        = .error (.invalidRequest "Empty collab params list") := by
  intro env ws payload uid bufsize h1 h2 h3 hempty
  unfold batch_create_collab_handler
  rw [h1, h2]
  dsimp only
  rw [h3, if_pos rfl, hempty]
  rfl

/-- C5 witness: the amended statement at the all-rejected concrete payload. -/
theorem c5_empty_and_all_rejected_same_error_witness :
    batch_create_collab_handler sampleBatchEnv "ws-1" rejectedOnlyPayload
      = .error (.invalidRequest "Empty collab params list") :=
  c5_empty_and_all_rejected_same_error sampleBatchEnv "ws-1" rejectedOnlyPayload 7 0
    rfl rfl rfl (by decide)

/-! ## Claim C3 -/

/-- C3 counterexample: in a two-record batch, record b's embedding
computation succeeds, yet because record a's fails, the fail-fast
`try_join_all` returns an error, the computed embedding for b is discarded,
and both records are persisted without embeddings (the submission itself
still succeeds). -/
theorem c3_counterexample_join_discards_other_embeddings :
    c3BatchEnv.create_collab_embeddings c3RecordB = .ok (some ⟨5⟩)
      ∧ fetch_embeddings c3BatchEnv.create_collab_embeddings [c3RecordA, c3RecordB]
        = .error (.externalError "embedding backend down")
      ∧ batch_create_collab_handler c3BatchEnv "ws-1" c3Payload
        = .ok [c3RecordA, c3RecordB]
      ∧ c3RecordB.embeddings = none := by
  refine ⟨by decide, by decide, by decide, rfl⟩

/-- C3 amended: each record's embedding future can fail independently, but
the join is fail-fast (`try_join_all`): any one record's failure makes the
whole embedding fan-out return an error, discarding the embeddings computed
for every other record; the submission is still never aborted — the
accepted records are persisted unchanged, without embeddings. -/
theorem c3_embedding_join_fail_fast_submission_proceeds :
    (∀ (f : CollabParams → Except AppError (Option AFCollabEmbeddings))
        (params : List CollabParams) (p : CollabParams) (e : AppError),
      p ∈ params → f p = .error e →
      ∃ e2, fetch_embeddings f params = .error e2)
    ∧ (∀ (env : BatchCollabEnv) (ws : String)
        (payload : List (Except String (List Nat))) (uid : Int) (bufsize : Nat)
        (e : AppError),
      env.get_user_uid = .ok uid →
      env.compress_type = .ok (.brotli bufsize) →
      env.spawn_ok = true →
      env.can_index_workspace ws = .ok true →
      acceptedSet env.oracle bufsize payload ≠ [] →
      fetch_embeddings env.create_collab_embeddings
          (acceptedSet env.oracle bufsize payload) = .error e →
      env.batch_insert_new_collab ws uid (acceptedSet env.oracle bufsize payload)
          = .ok () →
      batch_create_collab_handler env ws payload
        = .ok (acceptedSet env.oracle bufsize payload)) := by
  constructor
  · intro f params p e hp hf
    have hmem := List.mem_map_of_mem f hp
    rw [hf] at hmem
    rcases try_join_all_error_of_mem (params.map f) e hmem with ⟨e2, he2⟩
    refine ⟨e2, ?_⟩
    unfold fetch_embeddings
    rw [he2]
  · intro env ws payload uid bufsize e h1 h2 h3 h4 hne hf hins
    unfold batch_create_collab_handler
    rw [h1, h2]
    dsimp only
    rw [h3, if_pos rfl]
    cases hE : (acceptedSet env.oracle bufsize payload).isEmpty with
    | true => exact absurd (List.isEmpty_iff.mp hE) hne
    | false =>
      rw [if_neg Bool.false_ne_true, h4]
      dsimp only
      rw [if_pos rfl, hf]
      dsimp only
      rw [hins]

/-- C3 witness: the amended statement at the two-record fixture. -/
theorem c3_embedding_join_fail_fast_submission_proceeds_witness :
    (∃ e2, fetch_embeddings c3BatchEnv.create_collab_embeddings
        [c3RecordA, c3RecordB] = .error e2)
    ∧ batch_create_collab_handler c3BatchEnv "ws-1" c3Payload
        = .ok (acceptedSet c3BatchEnv.oracle 0 c3Payload) :=
  ⟨c3_embedding_join_fail_fast_submission_proceeds.1
      c3BatchEnv.create_collab_embeddings [c3RecordA, c3RecordB] c3RecordA
      (.externalError "embedding backend down") (by decide) (by decide),
    c3_embedding_join_fail_fast_submission_proceeds.2 c3BatchEnv "ws-1" c3Payload 7 0
      (.externalError "embedding backend down") rfl rfl rfl rfl (by decide) (by decide)
      rfl⟩

/-! ## Claim C4 -/

/-- C4 counterexample: when the sink mailbox is full, the realtime handler
fails with `AppError::Internal` — a server-internal error class, not an
Overload class (lines 1546-1555). -/
theorem c4_counterexample_queue_full_is_internal :
    post_realtime_message_stream_handler sampleRealtimeEnv [.ok [1]]
      = .error (.internal ("Failed to send message to websocket server, error:"
          ++ TrySendError.display .full)) := by
  decide

/-- C4 amended: when the sink's inbound queue is full (or closed), the
handler fails immediately with a server-internal (`Internal`) error built
from the send failure, and performs no internal retry or queuing: the
outcome is decided by the single `try_send` call. -/
theorem c4_queue_full_fails_fast_with_internal :
    (∀ (env : RealtimeEnv) (payload : List (Except AppError (List Nat)))
        (uid : Int) (bytes : List Nat) (message : RealtimeMessage)
        (err : TrySendError),
      env.get_user_uid = .ok uid →
      collectChunks payload = .ok bytes →
      parser_realtime_msg env bytes = .ok message →
      env.try_send ⟨uid, deviceIdOf env, message⟩ = .error err →
      post_realtime_message_stream_handler env payload
        = .error (.internal ("Failed to send message to websocket server, error:"
            ++ err.display)))
    ∧ (∀ (env : RealtimeEnv) (payload : List (Except AppError (List Nat)))
        (uid : Int) (bytes : List Nat) (message : RealtimeMessage),
      env.get_user_uid = .ok uid →
      collectChunks payload = .ok bytes →
      parser_realtime_msg env bytes = .ok message →
      env.try_send ⟨uid, deviceIdOf env, message⟩ = .ok () →
      post_realtime_message_stream_handler env payload = .ok ()) := by
  constructor
  · intro env payload uid bytes message err h1 h2 h3 h4
    unfold post_realtime_message_stream_handler
    rw [h1]
    dsimp only
    rw [h2]
    dsimp only
    rw [h3]
    dsimp only
    rw [h4]
  · intro env payload uid bytes message h1 h2 h3 h4
    unfold post_realtime_message_stream_handler
    rw [h1]
    dsimp only
    rw [h2]
    dsimp only
    rw [h3]
    dsimp only
    rw [h4]

/-- C4 witness: the amended statement at a full sink and at an accepting
sink. -/
theorem c4_queue_full_fails_fast_with_internal_witness :
    post_realtime_message_stream_handler sampleRealtimeEnv [.ok [1]]
        = .error (.internal ("Failed to send message to websocket server, error:"
            ++ TrySendError.display .full))
      ∧ post_realtime_message_stream_handler okSinkRealtimeEnv [.ok [1]] = .ok () :=
  ⟨c4_queue_full_fails_fast_with_internal.1 sampleRealtimeEnv [.ok [1]] 7 [1] ⟨1⟩
      .full rfl rfl rfl rfl,
    c4_queue_full_fails_fast_with_internal.2 okSinkRealtimeEnv [.ok [1]] 7 [1] ⟨1⟩
      rfl rfl rfl rfl⟩

/-! ## Claim C8 -/

/-- C8 counterexample: a failure to decode the outer envelope yields
`AppError::Internal` (line 1692), not an InvalidRequest-class error. -/
theorem c8_counterexample_outer_decode_is_internal :
    parser_realtime_msg badOuterRealtimeEnv [0]
      = .error (.internal "invalid protobuf envelope") := by
  decide

/-- C8 amended: an outer-envelope decode failure yields an Internal-class
error; a decompression failure propagates the decompressor's own error; an
inner-message decode failure yields an InvalidRequest-class error; and a
message that fails to decode is never forwarded to the sink — the handler
returns the decode error and its outcome is independent of the sink. -/
theorem c8_decode_failure_classes_and_no_forwarding :
    (∀ (env : RealtimeEnv) (payload : List Nat) (e : String),
      env.decode_outer payload = .error e →
      parser_realtime_msg env payload = .error (.internal e))
    ∧ (∀ (env : RealtimeEnv) (payload : List Nat) (outer : HttpRealtimeMessage)
        (n : Nat) (e : AppError),
      env.decode_outer payload = .ok outer →
      env.compression_header = some (.ok (.brotli n)) →
      env.blocking_decompress n outer.payload = .error e →
      parser_realtime_msg env payload = .error e)
    ∧ (∀ (env : RealtimeEnv) (payload : List Nat) (outer : HttpRealtimeMessage)
        (e : String),
      env.decode_outer payload = .ok outer →
      env.compression_header = none →
      env.decode_inner outer.payload = .error e →
      parser_realtime_msg env payload
        = .error (.invalidRequest ("Failed to parse RealtimeMessage: " ++ e)))
    ∧ (∀ (env : RealtimeEnv) (f : ClientStreamMessage → Except TrySendError Unit)
        (payload : List (Except AppError (List Nat))) (uid : Int) (bytes : List Nat)
        (e : AppError),
      env.get_user_uid = .ok uid →
      collectChunks payload = .ok bytes →
      parser_realtime_msg env bytes = .error e →
      post_realtime_message_stream_handler env payload = .error e
        ∧ post_realtime_message_stream_handler env payload
          = post_realtime_message_stream_handler { env with try_send := f } payload) := by
  refine ⟨?_, ?_, ?_, ?_⟩
  · intro env payload e h
    unfold parser_realtime_msg
    rw [h]
  · intro env payload outer n e h1 h2 h3
    unfold parser_realtime_msg
    rw [h1]
    dsimp only
    rw [h2]
    dsimp only
    rw [h3]
  · intro env payload outer e h1 h2 h3
    unfold parser_realtime_msg
    rw [h1]
    dsimp only
    rw [h2]
    dsimp only
    rw [h3]
  · intro env f payload uid bytes e h1 h2 h3
    have key : ∀ (env2 : RealtimeEnv), env2.get_user_uid = .ok uid →
        parser_realtime_msg env2 bytes = .error e →
        post_realtime_message_stream_handler env2 payload = .error e := by
      intro env2 k1 k3
      unfold post_realtime_message_stream_handler
      rw [k1]
      dsimp only
      rw [h2]
      dsimp only
      rw [k3]
    constructor
    · exact key env h1 h3
    · rw [key env h1 h3, key { env with try_send := f } h1 h3]

/-- C8 witness: the amended statement at concrete envelopes — failing outer
decode, failing decompression, failing inner decode, and the non-forwarding
of a failed message for an arbitrary replacement sink. -/
theorem c8_decode_failure_classes_and_no_forwarding_witness :
    parser_realtime_msg badOuterRealtimeEnv [3]
        = .error (.internal "invalid protobuf envelope")
      ∧ parser_realtime_msg brotliFailRealtimeEnv [3]
        = .error (.invalidRequest "decompressed size exceeds the buffer size")
      ∧ parser_realtime_msg badInnerRealtimeEnv [3]
        = .error (.invalidRequest ("Failed to parse RealtimeMessage: " ++ "bad message"))
      ∧ (post_realtime_message_stream_handler badOuterRealtimeEnv [.ok [3]]
          = .error (.internal "invalid protobuf envelope")
        ∧ post_realtime_message_stream_handler badOuterRealtimeEnv [.ok [3]]
          = post_realtime_message_stream_handler
              { badOuterRealtimeEnv with try_send := fun _ => .ok () } [.ok [3]]) :=
  ⟨c8_decode_failure_classes_and_no_forwarding.1 badOuterRealtimeEnv [3]
      "invalid protobuf envelope" rfl,
    c8_decode_failure_classes_and_no_forwarding.2.1 brotliFailRealtimeEnv [3]
      ⟨"device-1", [3]⟩ 4 (.invalidRequest "decompressed size exceeds the buffer size")
      rfl rfl rfl,
    c8_decode_failure_classes_and_no_forwarding.2.2.1 badInnerRealtimeEnv [3]
      ⟨"device-1", [3]⟩ "bad message" rfl rfl rfl,
    c8_decode_failure_classes_and_no_forwarding.2.2.2 badOuterRealtimeEnv
      (fun _ => .ok ()) [.ok [3]] 7 [3] (.internal "invalid protobuf envelope")
      rfl rfl (by decide)⟩

/-! ## Claim C6 -/

/-- C6: in the publish stream, a metadata frame declaring more than 4 MiB
or a data frame declaring more than 32 MiB fails the whole submission with
an InvalidRequest-class error as soon as the length header is read — before
any body byte of that frame is required or buffered (the conclusions hold
whatever bytes follow the header, including none) — while a metadata length
of zero terminates the loop normally, after which a non-empty accumulator
is published successfully. -/
theorem c6_publish_size_limits_and_zero_sentinel :
    (∀ (env : PublishEnv) (bytes : List Nat) (acc : List PublishCollabItem)
        (meta_len : Nat) (rest : List Nat),
      readU32LittleEndian bytes = .ok (meta_len, rest) →
      meta_len > 4 * 1024 * 1024 →
      publishCollabLoop env bytes acc = .error (.invalidRequest "metadata too large"))
    ∧ (∀ (env : PublishEnv) (bytes : List Nat) (acc : List PublishCollabItem)
        (meta_len : Nat) (rest meta_buffer rest2 : List Nat)
        (meta : PublishCollabMetadata) (data_len : Nat) (rest3 : List Nat),
      readU32LittleEndian bytes = .ok (meta_len, rest) →
      ¬ meta_len > 4 * 1024 * 1024 →
      meta_len ≠ 0 →
      readExact rest meta_len = .ok (meta_buffer, rest2) →
      env.decode_meta meta_buffer = .ok meta →
      readU32LittleEndian rest2 = .ok (data_len, rest3) →
      data_len > 32 * 1024 * 1024 →
      publishCollabLoop env bytes acc = .error (.invalidRequest "data too large"))
    ∧ (∀ (env : PublishEnv) (bytes : List Nat) (acc : List PublishCollabItem)
        (rest : List Nat),
      readU32LittleEndian bytes = .ok (0, rest) →
      publishCollabLoop env bytes acc = .ok acc)
    ∧ (∀ (env : PublishEnv) (payload : List Nat) (items : List PublishCollabItem),
      publishCollabLoop env payload [] = .ok items →
      items ≠ [] →
      env.publish_collabs items = .ok () →
      post_publish_collabs_handler env payload = .ok items) := by
  refine ⟨?_, ?_, ?_, ?_⟩
  · intro env bytes acc meta_len rest hread hbig
    unfold publishCollabLoop
    simp only [publishLoopFuel]
    rw [hread]
    dsimp only
    rw [if_pos hbig]
  · intro env bytes acc meta_len rest meta_buffer rest2 meta data_len rest3
      hread hnotbig hnz hexact hdec hread2 hdbig
    unfold publishCollabLoop
    simp only [publishLoopFuel]
    rw [hread]
    dsimp only
    rw [if_neg hnotbig, if_neg hnz, hexact]
    dsimp only
    rw [hdec]
    dsimp only
    rw [hread2]
    dsimp only
    rw [if_pos hdbig]
  · intro env bytes acc rest hread
    unfold publishCollabLoop
    simp only [publishLoopFuel]
    rw [hread]
    dsimp only
    rw [if_neg (by omega), if_pos rfl]
  · intro env payload items hloop hne hpub
    unfold post_publish_collabs_handler
    rw [hloop]
    dsimp only
    cases hE : items.isEmpty with
    | true => exact absurd (List.isEmpty_iff.mp hE) hne
    | false => rw [if_neg Bool.false_ne_true, hpub]

/-- C6 witness: concrete oversize headers are rejected with no body bytes
present, a zero metadata header ends the loop normally, and a one-pair
stream publishes successfully. -/
theorem c6_publish_size_limits_and_zero_sentinel_witness :
    publishCollabLoop samplePublishEnv oversizeMetaBytes []
        = .error (.invalidRequest "metadata too large")
      ∧ publishCollabLoop samplePublishEnv oversizeDataBytes []
        = .error (.invalidRequest "data too large")
      ∧ publishCollabLoop samplePublishEnv [0, 0, 0, 0] [] = .ok []
      ∧ post_publish_collabs_handler samplePublishEnv onePairPublishBytes
        = .ok [⟨⟨1⟩, [8, 9]⟩] :=
  ⟨c6_publish_size_limits_and_zero_sentinel.1 samplePublishEnv oversizeMetaBytes []
      4194305 [] rfl (by decide),
    c6_publish_size_limits_and_zero_sentinel.2.1 samplePublishEnv oversizeDataBytes []
      1 [42, 1, 0, 0, 2] [42] [1, 0, 0, 2] ⟨1⟩ 33554433 [] rfl (by decide) (by decide)
      (by decide) rfl rfl (by decide),
    c6_publish_size_limits_and_zero_sentinel.2.2.1 samplePublishEnv [0, 0, 0, 0] [] []
      rfl,
    c6_publish_size_limits_and_zero_sentinel.2.2.2 samplePublishEnv onePairPublishBytes
      [⟨⟨1⟩, [8, 9]⟩] (by decide) (by decide) rfl⟩
